import Mathlib

/-!
Shallow embedding of the change-graph rendering logic of the pogo-vcs
VS Code extension, file `src/pogoHistoryView.ts`, method
`PogoHistoryViewProvider._getGraphHtml`, together with theorems settling
the specification claims about it.

The method is a pure transformation from a parsed `ChangesGraph` value to
markup; we embed the geometric and state content of that markup as explicit
record values (an `EdgePath` per routed edge, a `NodeCircle` per node, a
`ChangeInfo` per info-panel entry) and leave out the purely presentational
string concatenation around them (CSS, the tooltip timestamp produced by
`Date.toLocaleString`, and the `data-change-name` attributes).

Numbers in the source are TypeScript numbers used only on integer values
(grid coordinates, the scale constants 8 and 20, the arc radius 4,
`Math.sign` results); they are embedded as `Int`.
-/

/-- The `Change` record of `pogoHistoryView.ts` (TypeScript interface
`Change`): one node of the version-history graph.  `conflict_files` is
`string[] | null` in the source, embedded as `Option (List String)`. -/
structure Change where
  name : String
  unique_prefix : String
  unique_suffix : String
  description : String
  conflict_files : Option (List String)
  created_at : String
  updated_at : String
  is_checked_out : Bool
  x : Int
  y : Int
  deriving DecidableEq

/-- The `ChangesGraph` record: the node list and the edge list
(`adjacency_list`, pairs of change names).  The source guards
`graph.adjacency_list ? ... : ""` against a null list; a null list renders
no edges, exactly like the empty list, so a plain list suffices here. -/
structure ChangesGraph where
  changes : List Change
  adjacency_list : List (String × String)
  deriving DecidableEq

/-- `const xScale = 8` in `_getGraphHtml`. -/
def xScale : Int := 8

/-- `const yScale = 20` in `_getGraphHtml`. -/
def yScale : Int := 20

/-- `const radius = 4` in `_getGraphHtml` ("Arc radius"). -/
def radius : Int := 4

/-- The sweep-flag value the source's comment calls clockwise
("0 for clockwise"). -/
def sweepClockwise : Int := 0

/-- The sweep-flag value the source's comment calls counter-clockwise
("1 for counter-clockwise"). -/
def sweepCounterClockwise : Int := 1

/-- The CSS color token `var(--vscode-foreground)` used for nodes with no
conflict. -/
def foregroundColor : String := "var(--vscode-foreground)"

/-- The CSS color token `var(--vscode-errorForeground)` used for nodes in
conflict. -/
def errorForegroundColor : String := "var(--vscode-errorForeground)"

/-- The CSS color token `var(--vscode-editor-background)` used as the fill
of nodes that are not checked out. -/
def editorBackgroundColor : String := "var(--vscode-editor-background)"

/-- The geometry of one emitted edge: either the `<line>` element, or the
`<path>` element `M x1 y1 L arcStartX arcStartY A r r 0 0 sweep arcEndX
arcEndY L x2 y2` (which contains exactly one arc command). -/
inductive EdgePath where
  | line (x1 y1 x2 y2 : Int)
  | orthogonal (x1 y1 arcStartX arcStartY r sweep arcEndX arcEndY x2 y2 : Int)
  deriving DecidableEq

/-- The routing of one edge after direction canonicalization, lines
258-280 of `pogoHistoryView.ts`: a straight line when the two endpoints
share an x coordinate, otherwise a horizontal segment, a quarter-circle
arc, and a vertical segment. -/
def routeCanonical (x1 y1 x2 y2 : Int) : EdgePath :=
  if x1 = x2 then
    EdgePath.line x1 y1 x2 y2
  else
    let deltaX := x2 - x1
    let deltaY := y2 - y1
    let arcStartX := x2 - deltaX.sign * radius
    let arcStartY := y1
    let arcEndX := x2
    let arcEndY := y1 + deltaY.sign * radius
    let sweep := if (deltaX > 0 ∧ deltaY < 0) ∨ (deltaX < 0 ∧ deltaY > 0)
      then sweepClockwise else sweepCounterClockwise
    EdgePath.orthogonal x1 y1 arcStartX arcStartY radius sweep arcEndX arcEndY x2 y2

/-- The direction canonicalization of lines 253-256: when the target's
mapped y is numerically greater than the source's, both coordinate pairs
are swapped before routing. -/
def routePoints (px1 py1 px2 py2 : Int) : EdgePath :=
  if py2 > py1 then routeCanonical px2 py2 px1 py1 else routeCanonical px1 py1 px2 py2

/-- One step of the `adjacency_list.map` of lines 243-281: resolve both
endpoint names with `changes.find` and either route the edge or (when a
lookup misses) emit nothing — the source returns the empty string for the
edge, contributing nothing to the joined output. -/
def routeEdge (changes : List Change) (fromName toName : String) : Option EdgePath :=
  match changes.find? (fun c => c.name == fromName),
        changes.find? (fun c => c.name == toName) with
  | some fromChange, some toChange =>
      some (routePoints ((fromChange.x + 1) * xScale) ((fromChange.y + 1) * yScale)
        ((toChange.x + 1) * xScale) ((toChange.y + 1) * yScale))
  | _, _ => none

/-- All emitted edge paths of one layout pass (the `edges` string of the
source, with dropped edges contributing nothing). -/
def routeEdges (changes : List Change) (adj : List (String × String)) : List EdgePath :=
  adj.filterMap (fun e => routeEdge changes e.1 e.2)

/-- Whether both endpoint names of an edge resolve to a change in the
snapshot (the `!fromChange || !toChange` guard of line 246, negated). -/
def resolvesEdge (changes : List Change) (fromName toName : String) : Bool :=
  (changes.find? (fun c => c.name == fromName)).isSome &&
    (changes.find? (fun c => c.name == toName)).isSome

/-- The conflict test of line 288: `change.conflict_files &&
change.conflict_files.length > 0` (a null list is falsy). -/
def isInConflict (change : Change) : Bool :=
  match change.conflict_files with
  | some files => files.length > 0
  | none => false

/-- The `<circle>` element emitted per node (lines 283-299): center,
radius, fill and stroke colors, and the change name it is tagged with. -/
structure NodeCircle where
  cx : Int
  cy : Int
  r : Int
  fill : String
  stroke : String
  name : String
  deriving DecidableEq

/-- The node rendering of lines 283-299 of `pogoHistoryView.ts`. -/
def renderNode (change : Change) : NodeCircle :=
  let nodeColor := if isInConflict change then errorForegroundColor else foregroundColor
  let fillColor := if change.is_checked_out then nodeColor else editorBackgroundColor
  { cx := (change.x + 1) * xScale
    cy := (change.y + 1) * yScale
    r := 4
    fill := fillColor
    stroke := nodeColor
    name := change.name }

/-- The placeholder markup shown when a change has an empty description. -/
def noDescriptionHtml : String :=
  "<span style=\"color: var(--vscode-gitDecoration-addedResourceForeground);\">(no description)</span>"

/-- One info-panel entry (lines 302-333): vertical offset, the content of
the name and description divs, and whether the entry carries the click and
hover handlers. -/
structure ChangeInfo where
  top : Int
  nameHtml : String
  descriptionHtml : String
  clickable : Bool
  hasHoverHandlers : Bool
  deriving DecidableEq

/-- The info-panel entry generation of lines 302-333 of
`pogoHistoryView.ts`.  The `"~"` branch emits a fixed entry (name `~`,
description `&nbsp;`, no handlers); every other change gets its name as
the two styled prefix/suffix spans, its description (or the placeholder),
and handlers exactly when it is not checked out. -/
def changeInfo (change : Change) : ChangeInfo :=
  let topPosition := (change.y + 1) * yScale - 8
  let description := if change.description ≠ "" then change.description else noDescriptionHtml
  if change.name = "~" then
    { top := topPosition
      nameHtml := "~"
      descriptionHtml := "&nbsp;"
      clickable := false
      hasHoverHandlers := false }
  else
    let prefixHtml := "<span class=\"change-prefix\">" ++ change.unique_prefix ++ "</span>"
    let suffixHtml := "<span class=\"change-suffix\">" ++ change.unique_suffix ++ "</span>"
    let isClickable := !change.is_checked_out
    { top := topPosition
      nameHtml := prefixHtml ++ suffixHtml
      descriptionHtml := description
      clickable := isClickable
      hasHoverHandlers := isClickable }

/-- `Math.max(...graph.changes.map(c => c.x), 0)` of line 235. -/
def maxX (changes : List Change) : Int :=
  (changes.map (fun c => c.x)).foldr max 0

/-- `Math.max(...graph.changes.map(c => c.y), 0)` of line 236. -/
def maxY (changes : List Change) : Int :=
  (changes.map (fun c => c.y)).foldr max 0

/-- The derived render model of one layout pass: canvas size, edge paths,
node circles, and panel entries. -/
structure RenderModel where
  svgWidth : Int
  svgHeight : Int
  edges : List EdgePath
  nodes : List NodeCircle
  infos : List ChangeInfo
  deriving DecidableEq

/-- The whole layout pass of `_getGraphHtml` on one graph snapshot. -/
def renderModel (graph : ChangesGraph) : RenderModel :=
  { svgWidth := (maxX graph.changes + 2) * xScale
    svgHeight := (maxY graph.changes + 2) * yScale
    edges := routeEdges graph.changes graph.adjacency_list
    nodes := graph.changes.map renderNode
    infos := graph.changes.map changeInfo }

/-- The spec's name for the amount subtracted from `(row+1)*yScale` when
placing a panel entry; the source writes the literal `8` at line 303. -/
def halfRowHeight : Int := 8

/-- Whether a path is the straight line between the two given points, in
either direction. -/
def isLineBetween (p : EdgePath) (q r : Int × Int) : Bool :=
  match p with
  | EdgePath.line x1 y1 x2 y2 =>
      (x1 == q.1 && y1 == q.2 && x2 == r.1 && y2 == r.2) ||
      (x1 == r.1 && y1 == r.2 && x2 == q.1 && y2 == q.2)
  | EdgePath.orthogonal _ _ _ _ _ _ _ _ _ _ => false

/-- Whether a path is an orthogonal path of the emitted shape: a
horizontal first segment (arc start shares y with the start point), an
arc of the fixed radius, and a vertical last segment (arc end shares x
with the end point).  The `orthogonal` constructor holds exactly one arc. -/
def hasOrthogonalShape (p : EdgePath) : Bool :=
  match p with
  | EdgePath.orthogonal _ y1 _ arcStartY r _ arcEndX _ x2 _ =>
      arcStartY == y1 && arcEndX == x2 && r == radius
  | EdgePath.line _ _ _ _ => false

/- Concrete changes used as witness and counterexample inputs. -/

/-- A concrete change at grid (0, 0), checked out, no conflict. -/
def changeA : Change := ⟨"a", "a", "", "first", none, "", "", true, 0, 0⟩

/-- A concrete change at grid (1, 1), not checked out, empty conflict list. -/
def changeB : Change := ⟨"b", "b", "", "", some [], "", "", false, 1, 1⟩

/-- A concrete change at grid (0, 2), same column as `changeA`. -/
def changeC : Change := ⟨"c", "c", "", "", none, "", "", false, 0, 2⟩

/-- A concrete change at grid (3, 1), same row as `changeB`. -/
def changeD : Change := ⟨"d", "d", "", "", none, "", "", false, 3, 1⟩

/-- A concrete synthetic working-copy change named `"~"` whose other
fields are all nontrivial. -/
def changeTilde : Change := ⟨"~", "t", "t", "some text", some ["f"], "", "", true, 0, 5⟩

/-- A concrete change with a nonempty conflict list that is not checked
out. -/
def changeConflict : Change := ⟨"e", "e", "", "", some ["file.txt"], "", "", false, 2, 0⟩

/-- The empty graph snapshot. -/
def emptySnapshot : ChangesGraph := ⟨[], []⟩

/- Helper lemmas about the router. -/

theorem routeCanonical_of_eq (x1 y1 x2 y2 : Int) (h : x1 = x2) :
    routeCanonical x1 y1 x2 y2 = EdgePath.line x1 y1 x2 y2 := by
  simp [routeCanonical, h]

theorem routeCanonical_of_ne (x1 y1 x2 y2 : Int) (h : ¬ x1 = x2) :
    routeCanonical x1 y1 x2 y2 =
      EdgePath.orthogonal x1 y1 (x2 - (x2 - x1).sign * radius) y1 radius
        (if (x2 - x1 > 0 ∧ y2 - y1 < 0) ∨ (x2 - x1 < 0 ∧ y2 - y1 > 0)
          then sweepClockwise else sweepCounterClockwise)
        x2 (y1 + (y2 - y1).sign * radius) x2 y2 := by
  simp [routeCanonical, h]

theorem routeEdge_resolved {changes : List Change} {fromName toName : String}
    {fromChange toChange : Change}
    (hf : changes.find? (fun c => c.name == fromName) = some fromChange)
    (ht : changes.find? (fun c => c.name == toName) = some toChange) :
    routeEdge changes fromName toName =
      some (routePoints ((fromChange.x + 1) * xScale) ((fromChange.y + 1) * yScale)
        ((toChange.x + 1) * xScale) ((toChange.y + 1) * yScale)) := by
  unfold routeEdge
  rw [hf, ht]

theorem routeEdge_isSome (changes : List Change) (fromName toName : String) :
    (routeEdge changes fromName toName).isSome = resolvesEdge changes fromName toName := by
  unfold routeEdge resolvesEdge
  cases hf : changes.find? (fun c => c.name == fromName) <;>
    cases ht : changes.find? (fun c => c.name == toName) <;> simp

/- Claim theorems. -/

/-- Claim C2: edge routing is symmetric under endpoint canonicalization —
for two resolved nodes with the first's mapped row strictly greater than
the second's, routing the edge in either direction yields the same path,
because the endpoints are swapped exactly when the target's mapped row is
greater than the source's. -/
theorem route_symmetric (changes : List Change) (an bn : String) (a b : Change)
    (ha : changes.find? (fun c => c.name == an) = some a)
    (hb : changes.find? (fun c => c.name == bn) = some b)
    (hrow : (b.y + 1) * yScale < (a.y + 1) * yScale) :
    routeEdge changes an bn = routeEdge changes bn an := by
  rw [routeEdge_resolved ha hb, routeEdge_resolved hb ha]
  unfold routePoints
  rw [if_neg (lt_asymm hrow), if_pos hrow]

/-- Witness for `route_symmetric`: `changeB` sits at a strictly greater
mapped row than `changeA`, and the two routing directions agree. -/
theorem route_symmetric_witness :
    routeEdge [changeA, changeB] "b" "a" = routeEdge [changeA, changeB] "a" "b" :=
  route_symmetric [changeA, changeB] "b" "a" changeB changeA rfl rfl (by decide)

/-- Claim C4: the grid-to-pixel mapping is `((column+1)*xScale,
(row+1)*yScale)` with positive scale constants, and the same mapping is
used for the node circles and for the edge endpoints handed to the
router. -/
theorem coordinate_mapping :
    0 < xScale ∧ 0 < yScale ∧
    (∀ c : Change, ((renderNode c).cx, (renderNode c).cy) = ((c.x + 1) * xScale, (c.y + 1) * yScale)) ∧
    (∀ (changes : List Change) (fn tn : String) (fromChange toChange : Change),
      changes.find? (fun c => c.name == fn) = some fromChange →
      changes.find? (fun c => c.name == tn) = some toChange →
      routeEdge changes fn tn =
        some (routePoints (renderNode fromChange).cx (renderNode fromChange).cy
          (renderNode toChange).cx (renderNode toChange).cy)) :=
  ⟨by decide, by decide, fun _ => rfl,
   fun _ _ _ _ _ hf ht => routeEdge_resolved hf ht⟩

/-- Witness for `coordinate_mapping` at the concrete nodes `changeA` and
`changeB`. -/
theorem coordinate_mapping_witness :
    ((renderNode changeA).cx, (renderNode changeA).cy) = ((changeA.x + 1) * xScale, (changeA.y + 1) * yScale) ∧
    routeEdge [changeA, changeB] "a" "b" =
      some (routePoints (renderNode changeA).cx (renderNode changeA).cy
        (renderNode changeB).cx (renderNode changeB).cy) :=
  ⟨coordinate_mapping.2.2.1 changeA,
   coordinate_mapping.2.2.2 [changeA, changeB] "a" "b" changeA changeB rfl rfl⟩

/-- Claim C7: a change named `"~"` gets a fixed panel entry — the name
shown verbatim, a blank `&nbsp;` in place of any description, and neither
the click nor the hover handlers — whatever its other fields hold; the
entry depends only on the row. -/
theorem tilde_entry (c : Change) (h : c.name = "~") :
    changeInfo c = ⟨(c.y + 1) * yScale - 8, "~", "&nbsp;", false, false⟩ := by
  simp [changeInfo, h]

/-- Witness for `tilde_entry`: `changeTilde` is named `"~"` yet has a
nonempty description, a conflict list, and the checked-out flag set. -/
theorem tilde_entry_witness :
    changeInfo changeTilde = ⟨(changeTilde.y + 1) * yScale - 8, "~", "&nbsp;", false, false⟩ :=
  tilde_entry changeTilde rfl

/-- Claim C8: every panel entry's vertical offset is
`(row + 1) * yScale - halfRowHeight` (the source writes the literal 8,
half the 16px line height of the entry's text rows). -/
theorem panel_top_offset (c : Change) :
    (changeInfo c).top = (c.y + 1) * yScale - halfRowHeight := by
  simp only [changeInfo, halfRowHeight]
  split <;> rfl

/-- Witness for `panel_top_offset` at the concrete node `changeC`. -/
theorem panel_top_offset_witness :
    (changeInfo changeC).top = (changeC.y + 1) * yScale - halfRowHeight :=
  panel_top_offset changeC

/-- Claim C9 as stated is false at the empty graph: the canvas is not
zero-sized — the maxima fall back to 0 and the size formula yields
`(2*xScale, 2*yScale) = (16, 40)`. -/
theorem empty_snapshot_counterexample :
    ¬ ((renderModel emptySnapshot).svgWidth = 0 ∧ (renderModel emptySnapshot).svgHeight = 0) := by
  decide

/-- Claim C9, amended: the empty graph yields an empty render model (no
edges, nodes, or panel entries) with the canvas size formula
`((maxColumn+2)*xScale, (maxRow+2)*yScale)` evaluated at maxima 0, i.e. a
16 by 40 canvas, and no error. -/
theorem empty_snapshot_layout :
    renderModel emptySnapshot = ⟨(0 + 2) * xScale, (0 + 2) * yScale, [], [], []⟩ ∧
    maxX emptySnapshot.changes = 0 ∧ maxY emptySnapshot.changes = 0 ∧
    (renderModel emptySnapshot).svgWidth = 16 ∧ (renderModel emptySnapshot).svgHeight = 40 := by
  decide

/- Helper lemmas for the shape and sweep claims. -/

theorem routePoints_line_iff (px1 py1 px2 py2 : Int) :
    isLineBetween (routePoints px1 py1 px2 py2) (px1, py1) (px2, py2) = (px1 == px2) := by
  unfold routePoints
  by_cases hy : py2 > py1
  · rw [if_pos hy]
    by_cases hx : px1 = px2
    · rw [routeCanonical_of_eq _ _ _ _ hx.symm]
      subst hx
      simp [isLineBetween]
    · rw [routeCanonical_of_ne _ _ _ _ (fun hh => hx hh.symm)]
      rw [beq_false_of_ne hx]
      rfl
  · rw [if_neg hy]
    by_cases hx : px1 = px2
    · rw [routeCanonical_of_eq _ _ _ _ hx]
      subst hx
      simp [isLineBetween]
    · rw [routeCanonical_of_ne _ _ _ _ hx]
      rw [beq_false_of_ne hx]
      rfl

theorem routePoints_orth_shape (px1 py1 px2 py2 : Int) :
    hasOrthogonalShape (routePoints px1 py1 px2 py2) = !(px1 == px2) := by
  unfold routePoints
  by_cases hy : py2 > py1
  · rw [if_pos hy]
    by_cases hx : px1 = px2
    · rw [routeCanonical_of_eq _ _ _ _ hx.symm]
      subst hx
      simp [hasOrthogonalShape]
    · rw [routeCanonical_of_ne _ _ _ _ (fun hh => hx hh.symm)]
      rw [beq_false_of_ne hx]
      simp [hasOrthogonalShape]
  · rw [if_neg hy]
    by_cases hx : px1 = px2
    · rw [routeCanonical_of_eq _ _ _ _ hx]
      subst hx
      simp [hasOrthogonalShape]
    · rw [routeCanonical_of_ne _ _ _ _ hx]
      rw [beq_false_of_ne hx]
      simp [hasOrthogonalShape]

theorem routeCanonical_sweep (a b c d x1 y1 asx asy r sw aex aey x2 y2 : Int)
    (h : routeCanonical a b c d = EdgePath.orthogonal x1 y1 asx asy r sw aex aey x2 y2) :
    sw = if (x2 - x1 > 0 ∧ y2 - y1 < 0) ∨ (x2 - x1 < 0 ∧ y2 - y1 > 0)
      then sweepClockwise else sweepCounterClockwise := by
  by_cases hx : a = c
  · rw [routeCanonical_of_eq _ _ _ _ hx] at h
    exact absurd h (by simp)
  · rw [routeCanonical_of_ne _ _ _ _ hx] at h
    injection h with h1 h2 h3 h4 h5 h6 h7 h8 h9 h10
    subst h1
    subst h2
    subst h9
    subst h10
    subst h6
    rfl

/-- Claim C1: for an edge whose two endpoints resolve, the router emits a
path; it is the straight segment between the two mapped endpoints exactly
when their mapped x coordinates agree, and otherwise an orthogonal path of
shape horizontal segment, one arc of the fixed radius, vertical segment
(the `orthogonal` constructor carries exactly one arc command). -/
theorem straight_vs_orthogonal (changes : List Change) (fn tn : String)
    (fromChange toChange : Change)
    (hf : changes.find? (fun c => c.name == fn) = some fromChange)
    (ht : changes.find? (fun c => c.name == tn) = some toChange) :
    (routeEdge changes fn tn).map
        (fun p => isLineBetween p ((fromChange.x + 1) * xScale, (fromChange.y + 1) * yScale)
          ((toChange.x + 1) * xScale, (toChange.y + 1) * yScale)) =
      some (((fromChange.x + 1) * xScale) == ((toChange.x + 1) * xScale)) ∧
    (routeEdge changes fn tn).map hasOrthogonalShape =
      some (!(((fromChange.x + 1) * xScale) == ((toChange.x + 1) * xScale))) := by
  rw [routeEdge_resolved hf ht]
  constructor
  · simp only [Option.map_some']
    exact congrArg some (routePoints_line_iff _ _ _ _)
  · simp only [Option.map_some']
    exact congrArg some (routePoints_orth_shape _ _ _ _)

/-- Witness for `straight_vs_orthogonal` on the concrete two-node graph
`[changeA, changeB]` (different columns, so the routed path is the
orthogonal one). -/
theorem straight_vs_orthogonal_witness :
    (routeEdge [changeA, changeB] "a" "b").map
        (fun p => isLineBetween p ((changeA.x + 1) * xScale, (changeA.y + 1) * yScale)
          ((changeB.x + 1) * xScale, (changeB.y + 1) * yScale)) =
      some (((changeA.x + 1) * xScale) == ((changeB.x + 1) * xScale)) ∧
    (routeEdge [changeA, changeB] "a" "b").map hasOrthogonalShape =
      some (!(((changeA.x + 1) * xScale) == ((changeB.x + 1) * xScale))) :=
  straight_vs_orthogonal [changeA, changeB] "a" "b" changeA changeB rfl rfl

/-- Claim C3: on every routed orthogonal edge, the sweep flag is the
clockwise value exactly when the canonicalized horizontal and vertical
deltas have opposite signs, and the counter-clockwise value when they have
the same sign. -/
theorem arc_sweep (changes : List Change) (fn tn : String)
    (x1 y1 asx asy r sw aex aey x2 y2 : Int)
    (h : routeEdge changes fn tn = some (EdgePath.orthogonal x1 y1 asx asy r sw aex aey x2 y2)) :
    (sw = sweepClockwise ↔ ((x2 - x1 > 0 ∧ y2 - y1 < 0) ∨ (x2 - x1 < 0 ∧ y2 - y1 > 0))) ∧
    (((x2 - x1 > 0 ∧ y2 - y1 > 0) ∨ (x2 - x1 < 0 ∧ y2 - y1 < 0)) → sw = sweepCounterClockwise) := by
  unfold routeEdge at h
  cases hf : changes.find? (fun c => c.name == fn) with
  | none => rw [hf] at h; exact absurd h (by simp)
  | some fc =>
    cases ht : changes.find? (fun c => c.name == tn) with
    | none => rw [hf, ht] at h; exact absurd h (by simp)
    | some tc =>
      rw [hf, ht] at h
      injection h with h
      unfold routePoints at h
      have hsw : sw = if (x2 - x1 > 0 ∧ y2 - y1 < 0) ∨ (x2 - x1 < 0 ∧ y2 - y1 > 0)
          then sweepClockwise else sweepCounterClockwise := by
        split at h
        · exact routeCanonical_sweep _ _ _ _ _ _ _ _ _ _ _ _ _ _ h
        · exact routeCanonical_sweep _ _ _ _ _ _ _ _ _ _ _ _ _ _ h
      rw [hsw]
      by_cases hc : (x2 - x1 > 0 ∧ y2 - y1 < 0) ∨ (x2 - x1 < 0 ∧ y2 - y1 > 0)
      · rw [if_pos hc]
        refine ⟨⟨fun _ => hc, fun _ => rfl⟩, fun hsame => ?_⟩
        exfalso
        omega
      · rw [if_neg hc]
        exact ⟨⟨fun h01 => absurd h01 (by decide), fun hcc => absurd hcc hc⟩, fun _ => rfl⟩

/-- Witness for `arc_sweep`: the routed edge between `changeA` and
`changeB` is the orthogonal path `(16,40) → arc → (8,20)` whose sweep flag
is the counter-clockwise value 1, matching its equal-sign deltas. -/
theorem arc_sweep_witness :
    ((1 : Int) = sweepClockwise ↔
      (((8 : Int) - 16 > 0 ∧ (20 : Int) - 40 < 0) ∨ ((8 : Int) - 16 < 0 ∧ (20 : Int) - 40 > 0))) ∧
    ((((8 : Int) - 16 > 0 ∧ (20 : Int) - 40 > 0) ∨ ((8 : Int) - 16 < 0 ∧ (20 : Int) - 40 < 0)) →
      (1 : Int) = sweepCounterClockwise) :=
  arc_sweep [changeA, changeB] "a" "b" 16 40 12 40 4 1 8 36 8 20 (by decide)

/- Helper lemmas for the dropped-edge count and node colors. -/

theorem routeEdges_length (changes : List Change) (adj : List (String × String)) :
    (routeEdges changes adj).length =
      adj.length - adj.countP (fun e => !(resolvesEdge changes e.1 e.2)) := by
  induction adj with
  | nil => rfl
  | cons e rest ih =>
    have hle : rest.countP (fun e => !(resolvesEdge changes e.1 e.2)) ≤ rest.length :=
      List.countP_le_length _
    have h := routeEdge_isSome changes e.1 e.2
    cases hr : routeEdge changes e.1 e.2 with
    | none =>
      rw [hr] at h
      have hres : resolvesEdge changes e.1 e.2 = false := by simpa using h.symm
      simp [routeEdges, List.filterMap_cons, hr, List.countP_cons, hres] at ih ⊢
      omega
    | some p =>
      rw [hr] at h
      have hres : resolvesEdge changes e.1 e.2 = true := by simpa using h.symm
      simp [routeEdges, List.filterMap_cons, hr, List.countP_cons, hres] at ih ⊢
      omega

theorem renderNode_stroke (c : Change) :
    (renderNode c).stroke = if isInConflict c then errorForegroundColor else foregroundColor := rfl

theorem renderNode_fill (c : Change) :
    (renderNode c).fill =
      if c.is_checked_out then (if isInConflict c then errorForegroundColor else foregroundColor)
      else editorBackgroundColor := rfl

/-- Claim C5: an edge with an unresolved endpoint is silently dropped
(its routing yields nothing, with no error possible in this total
function), and the number of emitted paths is the number of input edges
minus the number of edges with a missing endpoint. -/
theorem missing_endpoint_dropped (changes : List Change) (adj : List (String × String))
    (fn tn : String) (hmiss : resolvesEdge changes fn tn = false) :
    routeEdge changes fn tn = none ∧
    (routeEdges changes adj).length =
      adj.length - adj.countP (fun e => !(resolvesEdge changes e.1 e.2)) := by
  constructor
  · have h := routeEdge_isSome changes fn tn
    rw [hmiss] at h
    cases hr : routeEdge changes fn tn with
    | none => rfl
    | some p => rw [hr] at h; simp at h
  · exact routeEdges_length changes adj

/-- Witness for `missing_endpoint_dropped`: a three-edge adjacency list in
which one edge names the absent node `"zzz"`; two paths are emitted. -/
theorem missing_endpoint_dropped_witness :
    routeEdge [changeA, changeB] "zzz" "a" = none ∧
    (routeEdges [changeA, changeB] [("a", "b"), ("zzz", "a"), ("b", "a")]).length =
      ([("a", "b"), ("zzz", "a"), ("b", "a")] : List (String × String)).length -
        ([("a", "b"), ("zzz", "a"), ("b", "a")] : List (String × String)).countP
          (fun e => !(resolvesEdge [changeA, changeB] e.1 e.2)) :=
  missing_endpoint_dropped [changeA, changeB] [("a", "b"), ("zzz", "a"), ("b", "a")]
    "zzz" "a" (by decide)

/-- Claim C6 as stated is false at `changeConflict` (conflicted but not
checked out): its stroke is the conflict color yet its fill is the
background color, so "the stroke color (and the fill color) is the
conflict color iff `conflict_files` is non-empty" does not hold. -/
theorem node_colors_counterexample :
    ¬ ((((renderNode changeConflict).fill ≠ editorBackgroundColor) ↔
          changeConflict.is_checked_out = true) ∧
       ((((renderNode changeConflict).stroke = errorForegroundColor) ∧
          ((renderNode changeConflict).fill = errorForegroundColor)) ↔
          isInConflict changeConflict = true)) := by
  decide

/-- Claim C6, amended: the fill is non-background iff the change is
checked out; the stroke is the conflict color iff the conflict list is
non-null and non-empty; and the fill is the conflict color iff the change
is both in conflict and checked out. -/
theorem node_colors (c : Change) :
    (((renderNode c).fill ≠ editorBackgroundColor) ↔ c.is_checked_out = true) ∧
    (((renderNode c).stroke = errorForegroundColor) ↔ isInConflict c = true) ∧
    (((renderNode c).fill = errorForegroundColor) ↔
      (isInConflict c = true ∧ c.is_checked_out = true)) := by
  rw [renderNode_fill, renderNode_stroke]
  cases hco : c.is_checked_out <;> cases hc : isInConflict c <;> decide

/-- Witness for `node_colors` at the concrete node `changeB` (not checked
out, empty conflict list). -/
theorem node_colors_witness :
    (((renderNode changeB).fill ≠ editorBackgroundColor) ↔ changeB.is_checked_out = true) ∧
    (((renderNode changeB).stroke = errorForegroundColor) ↔ isInConflict changeB = true) ∧
    (((renderNode changeB).fill = errorForegroundColor) ↔
      (isInConflict changeB = true ∧ changeB.is_checked_out = true)) :=
  node_colors changeB

/-- Claim C10: for two resolved nodes on the same mapped row but different
mapped columns, no endpoint swap happens, the routed path is a degenerate
orthogonal path whose arc end has the same y as its start (the vertical
delta's sign is 0) followed by a zero-length vertical segment, with the
counter-clockwise sweep value — and routing the two directions yields
different path geometries. -/
theorem same_row_edge (changes : List Change) (an bn : String) (a b : Change)
    (ha : changes.find? (fun c => c.name == an) = some a)
    (hb : changes.find? (fun c => c.name == bn) = some b)
    (hrow : (a.y + 1) * yScale = (b.y + 1) * yScale)
    (hcol : (a.x + 1) * xScale ≠ (b.x + 1) * xScale) :
    ¬ ((b.y + 1) * yScale > (a.y + 1) * yScale) ∧
    routeEdge changes an bn = some (EdgePath.orthogonal
      ((a.x + 1) * xScale) ((a.y + 1) * yScale)
      ((b.x + 1) * xScale - ((b.x + 1) * xScale - (a.x + 1) * xScale).sign * radius)
      ((a.y + 1) * yScale) radius sweepCounterClockwise
      ((b.x + 1) * xScale) ((a.y + 1) * yScale)
      ((b.x + 1) * xScale) ((b.y + 1) * yScale)) ∧
    routeEdge changes an bn ≠ routeEdge changes bn an := by
  have hns : ¬ ((b.y + 1) * yScale > (a.y + 1) * yScale) := by
    rw [hrow]; exact lt_irrefl _
  have hns2 : ¬ ((a.y + 1) * yScale > (b.y + 1) * yScale) := by
    rw [hrow]; exact lt_irrefl _
  have hdy : (b.y + 1) * yScale - (a.y + 1) * yScale = 0 := by
    rw [hrow]; exact sub_self _
  have hdy2 : (a.y + 1) * yScale - (b.y + 1) * yScale = 0 := by
    rw [hrow]; exact sub_self _
  have hroute : routeEdge changes an bn = some (EdgePath.orthogonal
      ((a.x + 1) * xScale) ((a.y + 1) * yScale)
      ((b.x + 1) * xScale - ((b.x + 1) * xScale - (a.x + 1) * xScale).sign * radius)
      ((a.y + 1) * yScale) radius sweepCounterClockwise
      ((b.x + 1) * xScale) ((a.y + 1) * yScale)
      ((b.x + 1) * xScale) ((b.y + 1) * yScale)) := by
    rw [routeEdge_resolved ha hb]
    unfold routePoints
    rw [if_neg hns, routeCanonical_of_ne _ _ _ _ hcol, hdy,
      if_neg (by simp), Int.sign_zero, zero_mul, add_zero]
  have hroute2 : routeEdge changes bn an = some (EdgePath.orthogonal
      ((b.x + 1) * xScale) ((b.y + 1) * yScale)
      ((a.x + 1) * xScale - ((a.x + 1) * xScale - (b.x + 1) * xScale).sign * radius)
      ((b.y + 1) * yScale) radius sweepCounterClockwise
      ((a.x + 1) * xScale) ((b.y + 1) * yScale)
      ((a.x + 1) * xScale) ((a.y + 1) * yScale)) := by
    rw [routeEdge_resolved hb ha]
    unfold routePoints
    rw [if_neg hns2, routeCanonical_of_ne _ _ _ _ (Ne.symm hcol), hdy2,
      if_neg (by simp), Int.sign_zero, zero_mul, add_zero]
  refine ⟨hns, hroute, ?_⟩
  rw [hroute, hroute2]
  intro hcontra
  simp only [Option.some.injEq, EdgePath.orthogonal.injEq] at hcontra
  exact hcol hcontra.1

/-- Witness for `same_row_edge`: `changeB` and `changeD` share row 1 but
sit in columns 1 and 3. -/
theorem same_row_edge_witness :
    ¬ ((changeD.y + 1) * yScale > (changeB.y + 1) * yScale) ∧
    routeEdge [changeB, changeD] "b" "d" = some (EdgePath.orthogonal
      ((changeB.x + 1) * xScale) ((changeB.y + 1) * yScale)
      ((changeD.x + 1) * xScale - ((changeD.x + 1) * xScale - (changeB.x + 1) * xScale).sign * radius)
      ((changeB.y + 1) * yScale) radius sweepCounterClockwise
      ((changeD.x + 1) * xScale) ((changeB.y + 1) * yScale)
      ((changeD.x + 1) * xScale) ((changeD.y + 1) * yScale)) ∧
    routeEdge [changeB, changeD] "b" "d" ≠ routeEdge [changeB, changeD] "d" "b" :=
  same_row_edge [changeB, changeD] "b" "d" changeB changeD rfl rfl rfl (by decide)
